import Mathlib

/-!
# Verification of the grid-snapping code (`app/snap_to_grid.cpp`)

Shallow embedding of `snap_to_grid` and its helper
`snap_to_isometric_grid` from `src/app/snap_to_grid.cpp`, together with
theorems settling the specification's claims about them.

Conventions of the embedding:

* `gfx::Point` and `gfx::Rect` carry C `int` coordinates; they are
  modelled with unbounded `Int` (no input in any claim comes near the
  32-bit range, so overflow never matters here).
* `std::div` is C truncating division: quotient `Int.tdiv`, remainder
  `Int.tmod` (remainder takes the sign of the dividend).
* The isometric helper computes in C `double`; the model computes the
  same formulas in exact rationals `ℚ`, and `std::round` (round half
  away from zero) is modelled by `croundQ`.
-/

/-- Modelled from the spec: `gfx::Rect` (the `gfx` geometry library is
not part of the sources under verification; the spec's data model
section describes the grid as "an axis-aligned rectangle with integer
origin (x, y) and positive integer cell size (w, h)"). -/
structure Rect where
  x : Int
  y : Int
  w : Int
  h : Int
deriving DecidableEq, Repr

/-- Modelled from the spec: `gfx::Point`, "an integer 2D coordinate in
the same space as the grid". -/
structure Point where
  x : Int
  y : Int
deriving DecidableEq, Repr

/-- Modelled from the spec: `gfx::Rect::isEmpty()`, which holds when the
rectangle has no area (`w < 1 || h < 1`).  The spec calls a grid with
`w==0 or h==0` "empty" and imposes the invariant `w > 0, h > 0` on any
non-degenerate grid, so the two readings agree on every grid the spec
admits. -/
def Rect.isEmpty (r : Rect) : Bool :=
  r.w < 1 || r.h < 1

/-- `enum class PreferSnapTo` from `app/snap_to_grid.h`. -/
inductive PreferSnapTo where
  | ClosestGridVertex
  | BoxOrigin
  | BoxEnd
  | FloorGrid
  | CeilGrid
deriving DecidableEq, Repr

/-- `gen::GridType` (mirrored by `doc::GridType` in `doc/grid_type.h`):
rectangular or isometric grid. -/
inductive GridType where
  | Rectangular
  | Isometric
deriving DecidableEq, Repr

/-- Model of C `std::round` on an exact rational: round half away from
zero (`std::round(-0.5) = -1`, `std::round(0.5) = 1`). -/
def croundQ (x : ℚ) : Int :=
  if x < 0 then -⌊-x + 1 / 2⌋ else ⌊x + 1 / 2⌋

/-- Embedding of `snap_to_isometric_grid` (`app/snap_to_grid.cpp`).
The C++ computes in `double`; the model uses exact rationals.  The
`kSnapToVerticals` candidate block is statically disabled in the source
(`constexpr bool kSnapToVerticals = false;`), so it is dead code and is
omitted.  `static_cast<int>(std::floor ...)`/`std::ceil`/`std::round`
become `Int.floor`/`Int.ceil`/`croundQ` (the cast truncates an already
integral value).  `ClosestGridVertex` is also the `default:` label of
the `switch`, and the enumeration is exhaustive, so the `match` below is
total with the same branches. -/
def snap_to_isometric_grid (grid : Rect) (point : Point) (prefer : PreferSnapTo) :
    Point :=
  if grid.isEmpty then point
  else
    let tileW : ℚ := grid.w
    let tileH : ℚ := grid.h
    let halfW : ℚ := tileW / 2
    let halfH : ℚ := tileH / 2
    let originX : ℚ := grid.x
    let originY : ℚ := grid.y
    let relX : ℚ := point.x - originX
    let relY : ℚ := point.y - originY
    let tileXf : ℚ := (relX / halfW + relY / halfH) / 2
    let tileYf : ℚ := (relY / halfH - relX / halfW) / 2
    let tileX : Int :=
      match prefer with
      | PreferSnapTo.ClosestGridVertex => croundQ tileXf
      | PreferSnapTo.BoxOrigin | PreferSnapTo.FloorGrid => ⌊tileXf⌋
      | PreferSnapTo.BoxEnd | PreferSnapTo.CeilGrid => ⌈tileXf⌉
    let tileY : Int :=
      match prefer with
      | PreferSnapTo.ClosestGridVertex => croundQ tileYf
      | PreferSnapTo.BoxOrigin | PreferSnapTo.FloorGrid => ⌊tileYf⌋
      | PreferSnapTo.BoxEnd | PreferSnapTo.CeilGrid => ⌈tileYf⌉
    let snapX : ℚ := originX + (tileX - tileY) * halfW
    let snapY : ℚ := originY + (tileX + tileY) * halfH
    ⟨croundQ snapX, croundQ snapY⟩

/-- Embedding of `snap_to_grid` (`app/snap_to_grid.cpp`).  The
rectangular path is exact integer arithmetic: `std::div` is
`Int.tdiv`/`Int.tmod`, `grid.w / 2` is C integer (truncating) division,
and `d.rem ? a : b` tests the remainder against zero.  In the `CeilGrid`
branch the source keeps the working value `newPoint.x` (the
phase-shifted, possibly negativity-corrected coordinate) when the
remainder is zero; the model reproduces that literally. -/
def snap_to_grid (grid : Rect) (point : Point) (prefer : PreferSnapTo)
    (gridType : GridType) : Point :=
  if gridType = GridType.Isometric then
    snap_to_isometric_grid grid point prefer
  else if grid.isEmpty then point
  else
    let dxRem : Int := Int.tmod grid.x grid.w
    let dyRem : Int := Int.tmod grid.y grid.h
    let nx0 : Int := point.x - dxRem
    let ny0 : Int := point.y - dyRem
    let nx : Int :=
      if prefer ≠ PreferSnapTo.ClosestGridVertex ∧ nx0 < 0 then nx0 - grid.w
      else nx0
    let ny : Int :=
      if prefer ≠ PreferSnapTo.ClosestGridVertex ∧ ny0 < 0 then ny0 - grid.h
      else ny0
    match prefer with
    | PreferSnapTo.ClosestGridVertex =>
      ⟨dxRem + Int.tdiv nx grid.w * grid.w +
         (if Int.tmod nx grid.w > Int.tdiv grid.w 2 then grid.w else 0),
       dyRem + Int.tdiv ny grid.h * grid.h +
         (if Int.tmod ny grid.h > Int.tdiv grid.h 2 then grid.h else 0)⟩
    | PreferSnapTo.BoxOrigin | PreferSnapTo.FloorGrid =>
      ⟨dxRem + Int.tdiv nx grid.w * grid.w,
       dyRem + Int.tdiv ny grid.h * grid.h⟩
    | PreferSnapTo.CeilGrid =>
      ⟨if Int.tmod nx grid.w ≠ 0 then dxRem + (Int.tdiv nx grid.w + 1) * grid.w
        else nx,
       if Int.tmod ny grid.h ≠ 0 then dyRem + (Int.tdiv ny grid.h + 1) * grid.h
        else ny⟩
    | PreferSnapTo.BoxEnd =>
      ⟨dxRem + (Int.tdiv nx grid.w + 1) * grid.w,
       dyRem + (Int.tdiv ny grid.h + 1) * grid.h⟩

/-- One axis of the rectangular path of `snap_to_grid`: the source
performs exactly this computation on `x` (with `rem = grid.x tmod
grid.w`, `cell = grid.w`) and on `y` (with `rem = grid.y tmod grid.h`,
`cell = grid.h`), the two axes never interacting. -/
def snapAxis (rem cell coord : Int) (prefer : PreferSnapTo) : Int :=
  let n0 : Int := coord - rem
  let n : Int :=
    if prefer ≠ PreferSnapTo.ClosestGridVertex ∧ n0 < 0 then n0 - cell else n0
  match prefer with
  | PreferSnapTo.ClosestGridVertex =>
    rem + Int.tdiv n cell * cell +
      (if Int.tmod n cell > Int.tdiv cell 2 then cell else 0)
  | PreferSnapTo.BoxOrigin | PreferSnapTo.FloorGrid =>
    rem + Int.tdiv n cell * cell
  | PreferSnapTo.CeilGrid =>
    if Int.tmod n cell ≠ 0 then rem + (Int.tdiv n cell + 1) * cell else n
  | PreferSnapTo.BoxEnd =>
    rem + (Int.tdiv n cell + 1) * cell

lemma isEmpty_eq_false {grid : Rect} (hw : 0 < grid.w) (hh : 0 < grid.h) :
    grid.isEmpty = false := by
  simp only [Rect.isEmpty, Bool.or_eq_false_iff, decide_eq_false_iff_not, not_lt]
  omega

/-- The rectangular path decomposes into two independent runs of
`snapAxis`, one per axis. -/
lemma snap_to_grid_rect_eq (grid : Rect) (point : Point)
    (prefer : PreferSnapTo) (hw : 0 < grid.w) (hh : 0 < grid.h) :
    snap_to_grid grid point prefer GridType.Rectangular =
      ⟨snapAxis (Int.tmod grid.x grid.w) grid.w point.x prefer,
       snapAxis (Int.tmod grid.y grid.h) grid.h point.y prefer⟩ := by
  cases prefer <;>
    simp [snap_to_grid, snapAxis, isEmpty_eq_false hw hh]

example :
    snap_to_grid ⟨0, 0, 10, 10⟩ ⟨17, 23⟩ PreferSnapTo.FloorGrid
      GridType.Rectangular = ⟨10, 20⟩ := by decide

/-- On the claim's grid `{0,0,10,10}`, the `ClosestGridVertex` axis
computation at a nonnegative coordinate returns `10 * ((x + 4) / 10)`,
the multiple of `10` nearest to `x` with exact ties going down. -/
lemma snapAxis_closest_ten (x : Int) (hx : 0 ≤ x) :
    snapAxis 0 10 x PreferSnapTo.ClosestGridVertex = 10 * ((x + 4) / 10) := by
  have h1 : Int.tdiv x 10 = x / 10 := Int.tdiv_eq_ediv hx (by norm_num)
  have h2 : Int.tmod x 10 = x % 10 := Int.tmod_eq_emod hx (by norm_num)
  simp only [snapAxis, ne_eq, not_true_eq_false, false_and, if_false, sub_zero,
    zero_add, h1, h2]
  have h3 : Int.tdiv 10 2 = 5 := by decide
  rw [h3]
  split_ifs with h <;> omega

/-- Closed-form evaluation of `ClosestGridVertex` snapping on grid
`{0,0,10,10}` at a point with nonnegative coordinates. -/
lemma closest_ten_eval (p : Point) (hx : 0 ≤ p.x) (hy : 0 ≤ p.y) :
    snap_to_grid ⟨0, 0, 10, 10⟩ p PreferSnapTo.ClosestGridVertex
      GridType.Rectangular = ⟨10 * ((p.x + 4) / 10), 10 * ((p.y + 4) / 10)⟩ := by
  rw [snap_to_grid_rect_eq ⟨0, 0, 10, 10⟩ p _ (by norm_num) (by norm_num)]
  show (⟨snapAxis (Int.tmod 0 10) 10 p.x PreferSnapTo.ClosestGridVertex,
         snapAxis (Int.tmod 0 10) 10 p.y PreferSnapTo.ClosestGridVertex⟩ : Point) = _
  rw [(by decide : Int.tmod 0 10 = 0), snapAxis_closest_ten p.x hx,
    snapAxis_closest_ten p.y hy]

/-- **C1.** For every point, every snap preference, and every grid shape
(Rectangular and Isometric), if the grid is empty (`w = 0` or `h = 0`)
then `snap_to_grid` returns the input point unchanged. -/
theorem snap_empty_grid_identity (grid : Rect) (point : Point)
    (prefer : PreferSnapTo) (gridType : GridType)
    (h : grid.w = 0 ∨ grid.h = 0) :
    snap_to_grid grid point prefer gridType = point := by
  have hemp : grid.isEmpty = true := by
    simp only [Rect.isEmpty, Bool.or_eq_true, decide_eq_true_eq]
    omega
  cases gridType with
  | Rectangular => simp [snap_to_grid, hemp]
  | Isometric => simp [snap_to_grid, snap_to_isometric_grid, hemp]

/-- Witness for C1: the empty grid `{1,2,0,7}` leaves `(5,6)` unchanged. -/
theorem snap_empty_grid_identity_witness :
    snap_to_grid ⟨1, 2, 0, 7⟩ ⟨5, 6⟩ PreferSnapTo.FloorGrid
      GridType.Rectangular = ⟨5, 6⟩ :=
  snap_empty_grid_identity ⟨1, 2, 0, 7⟩ ⟨5, 6⟩ PreferSnapTo.FloorGrid
    GridType.Rectangular (Or.inl rfl)

/-- **C2, counterexample.** The claim says the exact tie point `(5,5)`
of grid `{0,0,10,10}` snaps to `(10,10)` under `ClosestGridVertex`; the
code's strict comparison `d.rem > grid.w / 2` (`5 > 5` is false) rounds
the tie *down*, returning `(0,0)`. -/
theorem closest_tie_point_counterexample :
    snap_to_grid ⟨0, 0, 10, 10⟩ ⟨5, 5⟩ PreferSnapTo.ClosestGridVertex
        GridType.Rectangular = ⟨0, 0⟩ ∧
      snap_to_grid ⟨0, 0, 10, 10⟩ ⟨5, 5⟩ PreferSnapTo.ClosestGridVertex
        GridType.Rectangular ≠ ⟨10, 10⟩ := by decide

/-- **C2, amended.** Rectangular `ClosestGridVertex` rounds each
nonnegative coordinate to the nearer grid line with exact ties rounding
*down*: for grid `{0,0,10,10}`, snap of `(4,4)` is `(0,0)`, snap of
`(6,6)` is `(10,10)`, and the exact tie point `(5,5)` gives `(0,0)`;
in general the returned coordinate is at least as close to the input
coordinate as any grid line `10 * k`, and on an exact tie the lower
line is chosen. -/
theorem closest_rounds_ties_down (p : Point) (k : Int)
    (hx : 0 ≤ p.x) (hy : 0 ≤ p.y) :
    snap_to_grid ⟨0, 0, 10, 10⟩ ⟨4, 4⟩ PreferSnapTo.ClosestGridVertex
        GridType.Rectangular = ⟨0, 0⟩ ∧
    snap_to_grid ⟨0, 0, 10, 10⟩ ⟨6, 6⟩ PreferSnapTo.ClosestGridVertex
        GridType.Rectangular = ⟨10, 10⟩ ∧
    snap_to_grid ⟨0, 0, 10, 10⟩ ⟨5, 5⟩ PreferSnapTo.ClosestGridVertex
        GridType.Rectangular = ⟨0, 0⟩ ∧
    (|p.x - (snap_to_grid ⟨0, 0, 10, 10⟩ p PreferSnapTo.ClosestGridVertex
          GridType.Rectangular).x| ≤ |p.x - 10 * k| ∧
      (|p.x - (snap_to_grid ⟨0, 0, 10, 10⟩ p PreferSnapTo.ClosestGridVertex
            GridType.Rectangular).x| = |p.x - 10 * k| →
        (snap_to_grid ⟨0, 0, 10, 10⟩ p PreferSnapTo.ClosestGridVertex
          GridType.Rectangular).x ≤ 10 * k)) ∧
    (|p.y - (snap_to_grid ⟨0, 0, 10, 10⟩ p PreferSnapTo.ClosestGridVertex
          GridType.Rectangular).y| ≤ |p.y - 10 * k| ∧
      (|p.y - (snap_to_grid ⟨0, 0, 10, 10⟩ p PreferSnapTo.ClosestGridVertex
            GridType.Rectangular).y| = |p.y - 10 * k| →
        (snap_to_grid ⟨0, 0, 10, 10⟩ p PreferSnapTo.ClosestGridVertex
          GridType.Rectangular).y ≤ 10 * k)) := by
  have he := closest_ten_eval p hx hy
  refine ⟨by decide, by decide, by decide, ?_, ?_⟩ <;>
    · rw [he]
      dsimp only
      constructor
      · simp only [Int.abs_eq_natAbs]
        omega
      · intro h
        simp only [Int.abs_eq_natAbs] at h
        omega

/-- Witness for C2 (amended), at the tie point `(5,5)` against the grid
line `10 * 1 = 10`: the returned coordinate `0` is equally distant and
the lower line is chosen. -/
theorem closest_rounds_ties_down_witness :
    snap_to_grid ⟨0, 0, 10, 10⟩ ⟨4, 4⟩ PreferSnapTo.ClosestGridVertex
        GridType.Rectangular = ⟨0, 0⟩ ∧
    snap_to_grid ⟨0, 0, 10, 10⟩ ⟨6, 6⟩ PreferSnapTo.ClosestGridVertex
        GridType.Rectangular = ⟨10, 10⟩ ∧
    snap_to_grid ⟨0, 0, 10, 10⟩ ⟨5, 5⟩ PreferSnapTo.ClosestGridVertex
        GridType.Rectangular = ⟨0, 0⟩ ∧
    (|(5 : Int) - (snap_to_grid ⟨0, 0, 10, 10⟩ ⟨5, 5⟩
          PreferSnapTo.ClosestGridVertex GridType.Rectangular).x| ≤
        |(5 : Int) - 10 * 1| ∧
      (|(5 : Int) - (snap_to_grid ⟨0, 0, 10, 10⟩ ⟨5, 5⟩
            PreferSnapTo.ClosestGridVertex GridType.Rectangular).x| =
          |(5 : Int) - 10 * 1| →
        (snap_to_grid ⟨0, 0, 10, 10⟩ ⟨5, 5⟩ PreferSnapTo.ClosestGridVertex
          GridType.Rectangular).x ≤ 10 * 1)) ∧
    (|(5 : Int) - (snap_to_grid ⟨0, 0, 10, 10⟩ ⟨5, 5⟩
          PreferSnapTo.ClosestGridVertex GridType.Rectangular).y| ≤
        |(5 : Int) - 10 * 1| ∧
      (|(5 : Int) - (snap_to_grid ⟨0, 0, 10, 10⟩ ⟨5, 5⟩
            PreferSnapTo.ClosestGridVertex GridType.Rectangular).y| =
          |(5 : Int) - 10 * 1| →
        (snap_to_grid ⟨0, 0, 10, 10⟩ ⟨5, 5⟩ PreferSnapTo.ClosestGridVertex
          GridType.Rectangular).y ≤ 10 * 1)) :=
  closest_rounds_ties_down ⟨5, 5⟩ 1 (by decide) (by decide)

/-- For every preference except `CeilGrid`, one axis of the rectangular
path lands on the lattice `rem + k * cell`. -/
lemma snapAxis_lattice (rem cell x : Int) (pref : PreferSnapTo)
    (hp : pref ≠ PreferSnapTo.CeilGrid) :
    ∃ k : Int, snapAxis rem cell x pref = rem + k * cell := by
  cases pref with
  | CeilGrid => exact absurd rfl hp
  | ClosestGridVertex =>
      simp only [snapAxis, ne_eq, not_true_eq_false, false_and, if_false]
      by_cases h : Int.tmod (x - rem) cell > Int.tdiv cell 2
      · exact ⟨Int.tdiv (x - rem) cell + 1, by rw [if_pos h]; ring⟩
      · exact ⟨Int.tdiv (x - rem) cell, by rw [if_neg h]; ring⟩
  | BoxOrigin =>
      exact ⟨Int.tdiv (if PreferSnapTo.BoxOrigin ≠ PreferSnapTo.ClosestGridVertex
          ∧ x - rem < 0 then x - rem - cell else x - rem) cell, by simp [snapAxis]⟩
  | FloorGrid =>
      exact ⟨Int.tdiv (if PreferSnapTo.FloorGrid ≠ PreferSnapTo.ClosestGridVertex
          ∧ x - rem < 0 then x - rem - cell else x - rem) cell, by simp [snapAxis]⟩
  | BoxEnd =>
      exact ⟨Int.tdiv (if PreferSnapTo.BoxEnd ≠ PreferSnapTo.ClosestGridVertex
          ∧ x - rem < 0 then x - rem - cell else x - rem) cell + 1, by simp [snapAxis]⟩

/-- A lattice offset `tmod g cell + k * cell` is congruent to `g`
modulo `cell`. -/
lemma tmod_add_mul_emod (g cell k : Int) :
    (Int.tmod g cell + k * cell) % cell = g % cell := by
  have h : Int.tmod g cell + k * cell
      = g + cell * (k - Int.tdiv g cell) := by
    rw [Int.tmod_def]; ring
  rw [h, Int.add_mul_emod_self_left]

/-- **C9.** Implicit lattice invariant: for every non-empty grid, every
point, Rectangular shape, and every preference other than `CeilGrid`
(which the claim excludes), the returned point lies on the grid vertex
lattice: `result.x ≡ grid.x (mod grid.w)` and
`result.y ≡ grid.y (mod grid.h)`. -/
theorem snap_rect_lattice_invariant (grid : Rect) (point : Point)
    (prefer : PreferSnapTo) (hw : 0 < grid.w) (hh : 0 < grid.h)
    (hp : prefer ≠ PreferSnapTo.CeilGrid) :
    (snap_to_grid grid point prefer GridType.Rectangular).x % grid.w
        = grid.x % grid.w ∧
      (snap_to_grid grid point prefer GridType.Rectangular).y % grid.h
        = grid.y % grid.h := by
  rw [snap_to_grid_rect_eq _ _ _ hw hh]
  obtain ⟨k1, h1⟩ := snapAxis_lattice (Int.tmod grid.x grid.w) grid.w point.x prefer hp
  obtain ⟨k2, h2⟩ := snapAxis_lattice (Int.tmod grid.y grid.h) grid.h point.y prefer hp
  dsimp only
  rw [h1, h2, tmod_add_mul_emod, tmod_add_mul_emod]
  exact ⟨rfl, rfl⟩

/-- Witness for C9: grid `{3,3,10,10}`, point `(7,-2)`, `BoxEnd`. -/
theorem snap_rect_lattice_invariant_witness :
    (snap_to_grid ⟨3, 3, 10, 10⟩ ⟨7, -2⟩ PreferSnapTo.BoxEnd
          GridType.Rectangular).x % 10 = 3 % 10 ∧
      (snap_to_grid ⟨3, 3, 10, 10⟩ ⟨7, -2⟩ PreferSnapTo.BoxEnd
          GridType.Rectangular).y % 10 = 3 % 10 :=
  snap_rect_lattice_invariant ⟨3, 3, 10, 10⟩ ⟨7, -2⟩ PreferSnapTo.BoxEnd
    (by decide) (by decide) (by decide)

/-- **C10.** Implicit axis independence of the rectangular path: for
non-empty grids, the x-coordinate of the result depends only on
`grid.x`, `grid.w` and `point.x`; two runs agreeing on those (and the
preference) return equal x-coordinates regardless of every y input, and
symmetrically for y. -/
theorem snap_rect_axis_independence (g1 g2 : Rect) (p1 p2 : Point)
    (prefer : PreferSnapTo) (h1w : 0 < g1.w) (h1h : 0 < g1.h)
    (h2w : 0 < g2.w) (h2h : 0 < g2.h) :
    (g1.x = g2.x → g1.w = g2.w → p1.x = p2.x →
        (snap_to_grid g1 p1 prefer GridType.Rectangular).x =
          (snap_to_grid g2 p2 prefer GridType.Rectangular).x) ∧
      (g1.y = g2.y → g1.h = g2.h → p1.y = p2.y →
        (snap_to_grid g1 p1 prefer GridType.Rectangular).y =
          (snap_to_grid g2 p2 prefer GridType.Rectangular).y) := by
  rw [snap_to_grid_rect_eq _ _ _ h1w h1h, snap_to_grid_rect_eq _ _ _ h2w h2h]
  constructor <;>
    · intro ha hb hc
      dsimp only
      rw [ha, hb, hc]

/-- Witness for C10: two grids and points sharing only their
x-axis data (`grid.x = 0`, `grid.w = 10`, `point.x = 23`) produce the
same snapped x-coordinate. -/
theorem snap_rect_axis_independence_witness :
    ((0 : Int) = 0 → (10 : Int) = 10 → (23 : Int) = 23 →
        (snap_to_grid ⟨0, 5, 10, 7⟩ ⟨23, 4⟩ PreferSnapTo.FloorGrid
            GridType.Rectangular).x =
          (snap_to_grid ⟨0, 9, 10, 3⟩ ⟨23, 100⟩ PreferSnapTo.FloorGrid
            GridType.Rectangular).x) ∧
      ((5 : Int) = 9 → (7 : Int) = 3 → (4 : Int) = 100 →
        (snap_to_grid ⟨0, 5, 10, 7⟩ ⟨23, 4⟩ PreferSnapTo.FloorGrid
            GridType.Rectangular).y =
          (snap_to_grid ⟨0, 9, 10, 3⟩ ⟨23, 100⟩ PreferSnapTo.FloorGrid
            GridType.Rectangular).y) :=
  snap_rect_axis_independence ⟨0, 5, 10, 7⟩ ⟨0, 9, 10, 3⟩ ⟨23, 4⟩ ⟨23, 100⟩
    PreferSnapTo.FloorGrid (by decide) (by decide) (by decide) (by decide)

/-- **C3 (code bug).** The negativity correction subtracts a full cell
width even when the phase-shifted coordinate is already an exact
(negative) multiple of the cell size, so the subsequent truncating
division overshoots by one cell: under `FloorGrid` on grid
`{0,0,10,10}`, the grid vertex `(-10,-10)` snaps to `(-20,-20)` instead
of staying at the greatest vertex at or below itself, `(-10,-10)`.  The
spec's non-multiple example `(-3,-3) → (-10,-10)` does hold. -/
theorem floor_negative_multiple_bug :
    snap_to_grid ⟨0, 0, 10, 10⟩ ⟨-10, -10⟩ PreferSnapTo.FloorGrid
        GridType.Rectangular = ⟨-20, -20⟩ ∧
      snap_to_grid ⟨0, 0, 10, 10⟩ ⟨-3, -3⟩ PreferSnapTo.FloorGrid
        GridType.Rectangular = ⟨-10, -10⟩ := by decide

/-- **C4 (code bug).** On grid `{3,3,10,10}` the grid vertex `(3,3)`
maps to itself under `ClosestGridVertex`, `BoxOrigin` and `FloorGrid`,
but under `CeilGrid` the `d.rem == 0` branch returns the *phase-shifted*
working coordinate (`newPoint = point - rem`) without restoring the
grid's phase offset, producing `(0,0)` instead of `(3,3)`. -/
theorem vertex_fixed_point_ceil_bug :
    snap_to_grid ⟨3, 3, 10, 10⟩ ⟨3, 3⟩ PreferSnapTo.ClosestGridVertex
        GridType.Rectangular = ⟨3, 3⟩ ∧
      snap_to_grid ⟨3, 3, 10, 10⟩ ⟨3, 3⟩ PreferSnapTo.BoxOrigin
        GridType.Rectangular = ⟨3, 3⟩ ∧
      snap_to_grid ⟨3, 3, 10, 10⟩ ⟨3, 3⟩ PreferSnapTo.FloorGrid
        GridType.Rectangular = ⟨3, 3⟩ ∧
      snap_to_grid ⟨3, 3, 10, 10⟩ ⟨3, 3⟩ PreferSnapTo.CeilGrid
        GridType.Rectangular = ⟨0, 0⟩ := by decide

/-- **C5 (code bug).** `CeilGrid` on grid `{0,0,10,10}`: the positive
exact multiple `(10,10)` is left unchanged and `(11,9)` moves to
`(20,10)` as claimed, but at the *negative* exact multiple `x = -10` the
negativity correction (`newPoint.x -= grid.w`) runs first, the remainder
is still zero, and the `d.rem == 0` branch keeps the corrected working
value: the coordinate comes back as `-20`, not unchanged. -/
theorem ceil_exact_multiple_bug :
    snap_to_grid ⟨0, 0, 10, 10⟩ ⟨10, 10⟩ PreferSnapTo.CeilGrid
        GridType.Rectangular = ⟨10, 10⟩ ∧
      snap_to_grid ⟨0, 0, 10, 10⟩ ⟨11, 9⟩ PreferSnapTo.CeilGrid
        GridType.Rectangular = ⟨20, 10⟩ ∧
      snap_to_grid ⟨0, 0, 10, 10⟩ ⟨-10, 0⟩ PreferSnapTo.CeilGrid
        GridType.Rectangular = ⟨-20, 0⟩ := by decide

example :
    snap_to_grid ⟨0, 0, 32, 16⟩ ⟨0, 0⟩ PreferSnapTo.ClosestGridVertex
      GridType.Isometric = ⟨0, 0⟩ := by
  norm_num [snap_to_grid, snap_to_isometric_grid, Rect.isEmpty, croundQ]

/-- Exact screen position of the diamond vertex with tile coordinates
`(a, b)`: the forward diamond projection
`screen.x = originX + (tile.x - tile.y) * halfW`. -/
def tileToScreenX (grid : Rect) (a b : Int) : ℚ :=
  grid.x + ((a : ℚ) - b) * ((grid.w : ℚ) / 2)

/-- Exact screen position of the diamond vertex with tile coordinates
`(a, b)`: the forward diamond projection
`screen.y = originY + (tile.x + tile.y) * halfH`. -/
def tileToScreenY (grid : Rect) (a b : Int) : ℚ :=
  grid.y + ((a : ℚ) + b) * ((grid.h : ℚ) / 2)

/-- Fractional tile x-coordinate of a point (inverse diamond
projection), as computed by `snap_to_isometric_grid`. -/
def tileXfQ (grid : Rect) (p : Point) : ℚ :=
  (((p.x : ℚ) - grid.x) / ((grid.w : ℚ) / 2) +
    ((p.y : ℚ) - grid.y) / ((grid.h : ℚ) / 2)) / 2

/-- Fractional tile y-coordinate of a point (inverse diamond
projection), as computed by `snap_to_isometric_grid`. -/
def tileYfQ (grid : Rect) (p : Point) : ℚ :=
  (((p.y : ℚ) - grid.y) / ((grid.h : ℚ) / 2) -
    ((p.x : ℚ) - grid.x) / ((grid.w : ℚ) / 2)) / 2

/-- Squared Euclidean distance between two points of the rational
plane. -/
def sqDistQ (px py qx qy : ℚ) : ℚ :=
  (px - qx) ^ 2 + (py - qy) ^ 2

lemma croundQ_intCast (n : Int) : croundQ (n : ℚ) = n := by
  unfold croundQ
  split_ifs with h
  · rw [show -(n : ℚ) + 1 / 2 = (-n : Int) + (1 / 2 : ℚ) by push_cast; ring,
      Int.floor_int_add]
    norm_num
  · rw [Int.floor_int_add]
    norm_num

/-- `croundQ` differs from its argument by at most `1/2`. -/
lemma croundQ_le (x : ℚ) :
    (croundQ x : ℚ) ≤ x + 1 / 2 ∧ x - 1 / 2 ≤ (croundQ x : ℚ) := by
  unfold croundQ
  split_ifs with h
  · have h1 := Int.floor_le (-x + 1 / 2)
    have h2 := Int.lt_floor_add_one (-x + 1 / 2)
    constructor <;> (push_cast; linarith)
  · have h1 := Int.floor_le (x + 1 / 2)
    have h2 := Int.lt_floor_add_one (x + 1 / 2)
    constructor <;> linarith

/-- On a non-empty grid, the `ClosestGridVertex` isometric path rounds
both fractional tile coordinates with `croundQ` and returns the pixel
rounding of the re-projected vertex. -/
lemma snap_iso_closest_eq (grid : Rect) (p : Point)
    (hw : 0 < grid.w) (hh : 0 < grid.h) :
    snap_to_grid grid p PreferSnapTo.ClosestGridVertex GridType.Isometric =
      ⟨croundQ (tileToScreenX grid (croundQ (tileXfQ grid p))
          (croundQ (tileYfQ grid p))),
       croundQ (tileToScreenY grid (croundQ (tileXfQ grid p))
          (croundQ (tileYfQ grid p)))⟩ := by
  simp [snap_to_grid, snap_to_isometric_grid, isEmpty_eq_false hw hh,
    tileToScreenX, tileToScreenY, tileXfQ, tileYfQ]

/-- Modelled from the spec (§4.1, "Isometric path"), for comparison with
the source embedding: half sizes `halfW = w/2`, `halfH = h/2`; inverse
diamond projection `tileX = (relX/halfW + relY/halfH)/2`,
`tileY = (relY/halfH − relX/halfW)/2` of the point relative to the grid
origin; quantization per policy (round-to-nearest for `ClosestVertex`,
floor for `FloorGrid`/`BoxOrigin`, ceil for `CeilGrid`/`BoxEnd`);
re-projection `snapX = originX + (tileX − tileY)*halfW`,
`snapY = originY + (tileX + tileY)*halfH`; and rounding to the nearest
integer pixel.  Where the spec says "round to nearest" it fixes no tie
rule; `croundQ` (C `std::round`, half away from zero) realizes it. -/
def specIsometricSnap (grid : Rect) (point : Point)
    (prefer : PreferSnapTo) : Point :=
  let halfW : ℚ := (grid.w : ℚ) / 2
  let halfH : ℚ := (grid.h : ℚ) / 2
  let relX : ℚ := (point.x : ℚ) - grid.x
  let relY : ℚ := (point.y : ℚ) - grid.y
  let tileXf : ℚ := (relX / halfW + relY / halfH) / 2
  let tileYf : ℚ := (relY / halfH - relX / halfW) / 2
  let tileX : Int :=
    match prefer with
    | PreferSnapTo.ClosestGridVertex => croundQ tileXf
    | PreferSnapTo.FloorGrid | PreferSnapTo.BoxOrigin => ⌊tileXf⌋
    | PreferSnapTo.CeilGrid | PreferSnapTo.BoxEnd => ⌈tileXf⌉
  let tileY : Int :=
    match prefer with
    | PreferSnapTo.ClosestGridVertex => croundQ tileYf
    | PreferSnapTo.FloorGrid | PreferSnapTo.BoxOrigin => ⌊tileYf⌋
    | PreferSnapTo.CeilGrid | PreferSnapTo.BoxEnd => ⌈tileYf⌉
  ⟨croundQ ((grid.x : ℚ) + ((tileX : ℚ) - tileY) * halfW),
   croundQ ((grid.y : ℚ) + ((tileX : ℚ) + tileY) * halfH)⟩

/-- **C6.** For every non-empty grid and every point, isometric snapping
computes exactly what the spec describes: fractional tile coordinates by
the inverse diamond projection, quantization per preference
(round-to-nearest for `ClosestGridVertex`, floor for
`FloorGrid`/`BoxOrigin`, ceil for `CeilGrid`/`BoxEnd`), re-projection to
screen space, and rounding to the nearest integer pixel. -/
theorem snap_iso_matches_spec (grid : Rect) (point : Point)
    (prefer : PreferSnapTo) (hw : 0 < grid.w) (hh : 0 < grid.h) :
    snap_to_grid grid point prefer GridType.Isometric =
      specIsometricSnap grid point prefer := by
  cases prefer <;>
    simp [snap_to_grid, snap_to_isometric_grid, specIsometricSnap,
      isEmpty_eq_false hw hh]

/-- Witness for C6: grid `{0,0,32,16}`, point `(10,3)`, `FloorGrid`. -/
theorem snap_iso_matches_spec_witness :
    snap_to_grid ⟨0, 0, 32, 16⟩ ⟨10, 3⟩ PreferSnapTo.FloorGrid
        GridType.Isometric =
      specIsometricSnap ⟨0, 0, 32, 16⟩ ⟨10, 3⟩ PreferSnapTo.FloorGrid :=
  snap_iso_matches_spec ⟨0, 0, 32, 16⟩ ⟨10, 3⟩ PreferSnapTo.FloorGrid
    (by decide) (by decide)

/-- **C7, counterexample.** On grid `{0,0,1,2}` the diamond projection
of tile `(-4,1)` is the exact screen position `(-5/2, -3)`, whose
nearest integer pixel is `(-3,-3)`; snapping that pixel with
`ClosestGridVertex` returns `(-4,-3)`, not the same point: for odd cell
sizes the projected vertex is not an integer pixel and the round trip
through pixel rounding moves the point. -/
theorem iso_roundtrip_counterexample :
    tileToScreenX ⟨0, 0, 1, 2⟩ (-4) 1 = -5 / 2 ∧
      croundQ (tileToScreenX ⟨0, 0, 1, 2⟩ (-4) 1) = -3 ∧
      croundQ (tileToScreenY ⟨0, 0, 1, 2⟩ (-4) 1) = -3 ∧
      snap_to_grid ⟨0, 0, 1, 2⟩ ⟨-3, -3⟩ PreferSnapTo.ClosestGridVertex
          GridType.Isometric = ⟨-4, -3⟩ ∧
      snap_to_grid ⟨0, 0, 1, 2⟩ ⟨-3, -3⟩ PreferSnapTo.ClosestGridVertex
          GridType.Isometric ≠ ⟨-3, -3⟩ := by
  refine ⟨by norm_num [tileToScreenX], by norm_num [tileToScreenX, croundQ],
    by norm_num [tileToScreenY, croundQ], ?_, ?_⟩ <;>
    norm_num [snap_to_grid, snap_to_isometric_grid, Rect.isEmpty, croundQ]

/-- **C7, amended.** For every non-empty grid with even cell sizes
(`w = 2W`, `h = 2H`), the diamond projection of integer tile coordinates
`(tx, ty)` is the exact integer pixel
`(grid.x + (tx−ty)·W, grid.y + (tx+ty)·H)`, and snapping that exact
screen point with `ClosestGridVertex` in Isometric mode returns the same
screen point unchanged. -/
theorem iso_roundtrip_even_grid (grid : Rect) (tx ty W H : Int)
    (hW : 0 < W) (hH : 0 < H) (hgw : grid.w = 2 * W) (hgh : grid.h = 2 * H) :
    tileToScreenX grid tx ty = ((grid.x + (tx - ty) * W : Int) : ℚ) ∧
      tileToScreenY grid tx ty = ((grid.y + (tx + ty) * H : Int) : ℚ) ∧
      snap_to_grid grid ⟨grid.x + (tx - ty) * W, grid.y + (tx + ty) * H⟩
          PreferSnapTo.ClosestGridVertex GridType.Isometric =
        ⟨grid.x + (tx - ty) * W, grid.y + (tx + ty) * H⟩ := by
  have hW0 : ((W : ℚ)) ≠ 0 := Int.cast_ne_zero.mpr (by omega)
  have hH0 : ((H : ℚ)) ≠ 0 := Int.cast_ne_zero.mpr (by omega)
  have hsx : tileToScreenX grid tx ty = ((grid.x + (tx - ty) * W : Int) : ℚ) := by
    rw [tileToScreenX, hgw]
    push_cast
    ring
  have hsy : tileToScreenY grid tx ty = ((grid.y + (tx + ty) * H : Int) : ℚ) := by
    rw [tileToScreenY, hgh]
    push_cast
    ring
  refine ⟨hsx, hsy, ?_⟩
  rw [snap_iso_closest_eq grid _ (by omega) (by omega)]
  have hXf : tileXfQ grid ⟨grid.x + (tx - ty) * W, grid.y + (tx + ty) * H⟩
      = (tx : ℚ) := by
    rw [tileXfQ, hgw, hgh]
    push_cast
    field_simp
  have hYf : tileYfQ grid ⟨grid.x + (tx - ty) * W, grid.y + (tx + ty) * H⟩
      = (ty : ℚ) := by
    rw [tileYfQ, hgw, hgh]
    push_cast
    field_simp
  rw [hXf, hYf, croundQ_intCast, croundQ_intCast, hsx, hsy,
    croundQ_intCast, croundQ_intCast]

/-- Witness for C7 (amended): grid `{0,0,4,6}` (`W = 2`, `H = 3`), tile
`(1, 0)`, projected pixel `(2, 3)`. -/
theorem iso_roundtrip_even_grid_witness :
    tileToScreenX ⟨0, 0, 4, 6⟩ 1 0 = (((0 : Int) + (1 - 0) * 2 : Int) : ℚ) ∧
      tileToScreenY ⟨0, 0, 4, 6⟩ 1 0 = (((0 : Int) + (1 + 0) * 3 : Int) : ℚ) ∧
      snap_to_grid ⟨0, 0, 4, 6⟩ ⟨0 + (1 - 0) * 2, 0 + (1 + 0) * 3⟩
          PreferSnapTo.ClosestGridVertex GridType.Isometric =
        ⟨0 + (1 - 0) * 2, 0 + (1 + 0) * 3⟩ :=
  iso_roundtrip_even_grid ⟨0, 0, 4, 6⟩ 1 0 2 3 (by decide) (by decide)
    (by decide) (by decide)

/-- Point's position along the diamond x-diagonal, in units of the half
cell width: `relX / halfW`. -/
def uCoord (grid : Rect) (p : Point) : ℚ :=
  ((p.x : ℚ) - grid.x) / ((grid.w : ℚ) / 2)

/-- Point's position along the diamond y-diagonal, in units of the half
cell height: `relY / halfH`. -/
def vCoord (grid : Rect) (p : Point) : ℚ :=
  ((p.y : ℚ) - grid.y) / ((grid.h : ℚ) / 2)

lemma tileXfQ_eq (grid : Rect) (p : Point) :
    tileXfQ grid p = (uCoord grid p + vCoord grid p) / 2 := rfl

lemma tileYfQ_eq (grid : Rect) (p : Point) :
    tileYfQ grid p = (vCoord grid p - uCoord grid p) / 2 := rfl

/-- On a square grid, squared distance from a point to the exact screen
position of the diamond vertex `(A, B)`, in diagonal coordinates. -/
lemma sqDist_vertex_square (grid : Rect) (p : Point) (hw : 0 < grid.w)
    (hsq : grid.h = grid.w) (A B : Int) :
    sqDistQ p.x p.y (tileToScreenX grid A B) (tileToScreenY grid A B)
      = ((grid.w : ℚ) / 2) ^ 2 *
          ((uCoord grid p - ((A : ℚ) - B)) ^ 2 +
            (vCoord grid p - ((A : ℚ) + B)) ^ 2) := by
  have hw0 : ((grid.w : ℚ)) ≠ 0 := Int.cast_ne_zero.mpr (by omega)
  rw [sqDistQ, tileToScreenX, tileToScreenY, uCoord, vCoord, hsq]
  field_simp
  ring

/-- Core algebra of the nearest-vertex property on a square grid: if
`(tX, tY)` rounds both diagonal averages to within `1/2`, its diamond
vertex is at least as close as any of the four tile neighbors
`(a, b)`. -/
lemma nearest_algebra (K u v : ℚ) (tX tY a b : Int) (hK : 0 ≤ K)
    (h1 : ((tX : ℚ)) ≤ (u + v) / 2 + 1 / 2)
    (h1' : (u + v) / 2 - 1 / 2 ≤ ((tX : ℚ)))
    (h2 : ((tY : ℚ)) ≤ (v - u) / 2 + 1 / 2)
    (h2' : (v - u) / 2 - 1 / 2 ≤ ((tY : ℚ)))
    (hnbr : (a - tX).natAbs + (b - tY).natAbs = 1) :
    K * ((u - ((tX : ℚ) - tY)) ^ 2 + (v - ((tX : ℚ) + tY)) ^ 2)
      ≤ K * ((u - ((a : ℚ) - b)) ^ 2 + (v - ((a : ℚ) + b)) ^ 2) := by
  have hcase : (a = tX + 1 ∧ b = tY) ∨ (a = tX - 1 ∧ b = tY)
      ∨ (a = tX ∧ b = tY + 1) ∨ (a = tX ∧ b = tY - 1) := by omega
  rcases hcase with ⟨ha, hb⟩ | ⟨ha, hb⟩ | ⟨ha, hb⟩ | ⟨ha, hb⟩ <;>
    rw [ha, hb] <;> push_cast <;>
    nlinarith [mul_nonneg hK
        (by linarith : (0 : ℚ) ≤ 2 - 2 * (u + v - 2 * (tX : ℚ))),
      mul_nonneg hK
        (by linarith : (0 : ℚ) ≤ 2 + 2 * (u + v - 2 * (tX : ℚ))),
      mul_nonneg hK
        (by linarith : (0 : ℚ) ≤ 2 - 2 * (v - u - 2 * (tY : ℚ))),
      mul_nonneg hK
        (by linarith : (0 : ℚ) ≤ 2 + 2 * (v - u - 2 * (tY : ℚ)))]

/-- On a square isometric grid, the tile selected by the
`ClosestGridVertex` rounding has exact screen position at least as close
to the input point as each of its four tile neighbors. -/
lemma iso_closest_nearest_neighbor (grid : Rect) (p : Point)
    (hw : 0 < grid.w) (hsq : grid.h = grid.w) (a b : Int)
    (hnbr : (a - croundQ (tileXfQ grid p)).natAbs
        + (b - croundQ (tileYfQ grid p)).natAbs = 1) :
    sqDistQ p.x p.y
        (tileToScreenX grid (croundQ (tileXfQ grid p))
          (croundQ (tileYfQ grid p)))
        (tileToScreenY grid (croundQ (tileXfQ grid p))
          (croundQ (tileYfQ grid p)))
      ≤ sqDistQ p.x p.y (tileToScreenX grid a b) (tileToScreenY grid a b) := by
  have h1 := croundQ_le (tileXfQ grid p)
  have h2 := croundQ_le (tileYfQ grid p)
  rw [tileXfQ_eq] at h1
  rw [tileYfQ_eq] at h2
  rw [sqDist_vertex_square grid p hw hsq, sqDist_vertex_square grid p hw hsq]
  exact nearest_algebra _ _ _ _ _ a b (sq_nonneg _)
    (by exact_mod_cast h1.1) (by exact_mod_cast h1.2)
    (by exact_mod_cast h2.1) (by exact_mod_cast h2.2) hnbr

/-- **C8, counterexample.** On the non-square grid `{0,0,32,16}` the
claim fails: at point `(-16, 0)` the fractional tile coordinates are
exact ties `(-1/2, 1/2)`, `croundQ` rounds them away from zero to tile
`(-1, 1)`, and snap returns that tile's vertex `(-32, 0)` at distance
`16`; but the neighboring candidate tile `(0, 1)` has vertex `(-16, 8)`
at distance `8`, strictly closer. -/
theorem iso_closest_not_nearest_counterexample :
    croundQ (tileXfQ ⟨0, 0, 32, 16⟩ ⟨-16, 0⟩) = -1 ∧
      croundQ (tileYfQ ⟨0, 0, 32, 16⟩ ⟨-16, 0⟩) = 1 ∧
      snap_to_grid ⟨0, 0, 32, 16⟩ ⟨-16, 0⟩ PreferSnapTo.ClosestGridVertex
          GridType.Isometric = ⟨-32, 0⟩ ∧
      tileToScreenX ⟨0, 0, 32, 16⟩ (-1) 1 = -32 ∧
      tileToScreenY ⟨0, 0, 32, 16⟩ (-1) 1 = 0 ∧
      sqDistQ (-16) 0 (tileToScreenX ⟨0, 0, 32, 16⟩ 0 1)
          (tileToScreenY ⟨0, 0, 32, 16⟩ 0 1)
        < sqDistQ (-16) 0 (-32) 0 := by
  refine ⟨by norm_num [tileXfQ, croundQ], by norm_num [tileYfQ, croundQ],
    by norm_num [snap_to_grid, snap_to_isometric_grid, Rect.isEmpty, croundQ],
    by norm_num [tileToScreenX], by norm_num [tileToScreenY],
    by norm_num [sqDistQ, tileToScreenX, tileToScreenY]⟩

/-- **C8, amended.** The origin point `(0,0)` of grid `{0,0,32,16}`
snaps to `(0,0)`; and on every non-empty *square* isometric grid
(`h = w`), the vertex selected by `ClosestGridVertex` (whose pixel
rounding the snap returns) is geometrically nearest: its exact squared
Euclidean distance to the input point is at most the distance to each of
the 4 neighboring candidate vertices.  (For non-square ratios the
counterexample above rules the universal claim out at rounding ties.) -/
theorem iso_closest_nearest_square (grid : Rect) (p : Point)
    (hw : 0 < grid.w) (hsq : grid.h = grid.w) :
    snap_to_grid ⟨0, 0, 32, 16⟩ ⟨0, 0⟩ PreferSnapTo.ClosestGridVertex
        GridType.Isometric = ⟨0, 0⟩ ∧
      snap_to_grid grid p PreferSnapTo.ClosestGridVertex GridType.Isometric =
        ⟨croundQ (tileToScreenX grid (croundQ (tileXfQ grid p))
            (croundQ (tileYfQ grid p))),
         croundQ (tileToScreenY grid (croundQ (tileXfQ grid p))
            (croundQ (tileYfQ grid p)))⟩ ∧
      sqDistQ p.x p.y
          (tileToScreenX grid (croundQ (tileXfQ grid p))
            (croundQ (tileYfQ grid p)))
          (tileToScreenY grid (croundQ (tileXfQ grid p))
            (croundQ (tileYfQ grid p)))
        ≤ sqDistQ p.x p.y
            (tileToScreenX grid (croundQ (tileXfQ grid p) + 1)
              (croundQ (tileYfQ grid p)))
            (tileToScreenY grid (croundQ (tileXfQ grid p) + 1)
              (croundQ (tileYfQ grid p))) ∧
      sqDistQ p.x p.y
          (tileToScreenX grid (croundQ (tileXfQ grid p))
            (croundQ (tileYfQ grid p)))
          (tileToScreenY grid (croundQ (tileXfQ grid p))
            (croundQ (tileYfQ grid p)))
        ≤ sqDistQ p.x p.y
            (tileToScreenX grid (croundQ (tileXfQ grid p) - 1)
              (croundQ (tileYfQ grid p)))
            (tileToScreenY grid (croundQ (tileXfQ grid p) - 1)
              (croundQ (tileYfQ grid p))) ∧
      sqDistQ p.x p.y
          (tileToScreenX grid (croundQ (tileXfQ grid p))
            (croundQ (tileYfQ grid p)))
          (tileToScreenY grid (croundQ (tileXfQ grid p))
            (croundQ (tileYfQ grid p)))
        ≤ sqDistQ p.x p.y
            (tileToScreenX grid (croundQ (tileXfQ grid p))
              (croundQ (tileYfQ grid p) + 1))
            (tileToScreenY grid (croundQ (tileXfQ grid p))
              (croundQ (tileYfQ grid p) + 1)) ∧
      sqDistQ p.x p.y
          (tileToScreenX grid (croundQ (tileXfQ grid p))
            (croundQ (tileYfQ grid p)))
          (tileToScreenY grid (croundQ (tileXfQ grid p))
            (croundQ (tileYfQ grid p)))
        ≤ sqDistQ p.x p.y
            (tileToScreenX grid (croundQ (tileXfQ grid p))
              (croundQ (tileYfQ grid p) - 1))
            (tileToScreenY grid (croundQ (tileXfQ grid p))
              (croundQ (tileYfQ grid p) - 1)) := by
  refine ⟨by norm_num [snap_to_grid, snap_to_isometric_grid, Rect.isEmpty,
      croundQ],
    snap_iso_closest_eq grid p hw (by omega),
    iso_closest_nearest_neighbor grid p hw hsq _ _ (by omega),
    iso_closest_nearest_neighbor grid p hw hsq _ _ (by omega),
    iso_closest_nearest_neighbor grid p hw hsq _ _ (by omega),
    iso_closest_nearest_neighbor grid p hw hsq _ _ (by omega)⟩

/-- Witness for C8 (amended): square grid `{0,0,32,32}`, point `(5,7)`. -/
theorem iso_closest_nearest_square_witness :
    snap_to_grid ⟨0, 0, 32, 16⟩ ⟨0, 0⟩ PreferSnapTo.ClosestGridVertex
        GridType.Isometric = ⟨0, 0⟩ ∧
      snap_to_grid ⟨0, 0, 32, 32⟩ ⟨5, 7⟩ PreferSnapTo.ClosestGridVertex
          GridType.Isometric =
        ⟨croundQ (tileToScreenX ⟨0, 0, 32, 32⟩
            (croundQ (tileXfQ ⟨0, 0, 32, 32⟩ ⟨5, 7⟩))
            (croundQ (tileYfQ ⟨0, 0, 32, 32⟩ ⟨5, 7⟩))),
         croundQ (tileToScreenY ⟨0, 0, 32, 32⟩
            (croundQ (tileXfQ ⟨0, 0, 32, 32⟩ ⟨5, 7⟩))
            (croundQ (tileYfQ ⟨0, 0, 32, 32⟩ ⟨5, 7⟩)))⟩ ∧
      sqDistQ 5 7
          (tileToScreenX ⟨0, 0, 32, 32⟩
            (croundQ (tileXfQ ⟨0, 0, 32, 32⟩ ⟨5, 7⟩))
            (croundQ (tileYfQ ⟨0, 0, 32, 32⟩ ⟨5, 7⟩)))
          (tileToScreenY ⟨0, 0, 32, 32⟩
            (croundQ (tileXfQ ⟨0, 0, 32, 32⟩ ⟨5, 7⟩))
            (croundQ (tileYfQ ⟨0, 0, 32, 32⟩ ⟨5, 7⟩)))
        ≤ sqDistQ 5 7
            (tileToScreenX ⟨0, 0, 32, 32⟩
              (croundQ (tileXfQ ⟨0, 0, 32, 32⟩ ⟨5, 7⟩) + 1)
              (croundQ (tileYfQ ⟨0, 0, 32, 32⟩ ⟨5, 7⟩)))
            (tileToScreenY ⟨0, 0, 32, 32⟩
              (croundQ (tileXfQ ⟨0, 0, 32, 32⟩ ⟨5, 7⟩) + 1)
              (croundQ (tileYfQ ⟨0, 0, 32, 32⟩ ⟨5, 7⟩))) ∧
      sqDistQ 5 7
          (tileToScreenX ⟨0, 0, 32, 32⟩
            (croundQ (tileXfQ ⟨0, 0, 32, 32⟩ ⟨5, 7⟩))
            (croundQ (tileYfQ ⟨0, 0, 32, 32⟩ ⟨5, 7⟩)))
          (tileToScreenY ⟨0, 0, 32, 32⟩
            (croundQ (tileXfQ ⟨0, 0, 32, 32⟩ ⟨5, 7⟩))
            (croundQ (tileYfQ ⟨0, 0, 32, 32⟩ ⟨5, 7⟩)))
        ≤ sqDistQ 5 7
            (tileToScreenX ⟨0, 0, 32, 32⟩
              (croundQ (tileXfQ ⟨0, 0, 32, 32⟩ ⟨5, 7⟩) - 1)
              (croundQ (tileYfQ ⟨0, 0, 32, 32⟩ ⟨5, 7⟩)))
            (tileToScreenY ⟨0, 0, 32, 32⟩
              (croundQ (tileXfQ ⟨0, 0, 32, 32⟩ ⟨5, 7⟩) - 1)
              (croundQ (tileYfQ ⟨0, 0, 32, 32⟩ ⟨5, 7⟩))) ∧
      sqDistQ 5 7
          (tileToScreenX ⟨0, 0, 32, 32⟩
            (croundQ (tileXfQ ⟨0, 0, 32, 32⟩ ⟨5, 7⟩))
            (croundQ (tileYfQ ⟨0, 0, 32, 32⟩ ⟨5, 7⟩)))
          (tileToScreenY ⟨0, 0, 32, 32⟩
            (croundQ (tileXfQ ⟨0, 0, 32, 32⟩ ⟨5, 7⟩))
            (croundQ (tileYfQ ⟨0, 0, 32, 32⟩ ⟨5, 7⟩)))
        ≤ sqDistQ 5 7
            (tileToScreenX ⟨0, 0, 32, 32⟩
              (croundQ (tileXfQ ⟨0, 0, 32, 32⟩ ⟨5, 7⟩))
              (croundQ (tileYfQ ⟨0, 0, 32, 32⟩ ⟨5, 7⟩) + 1))
            (tileToScreenY ⟨0, 0, 32, 32⟩
              (croundQ (tileXfQ ⟨0, 0, 32, 32⟩ ⟨5, 7⟩))
              (croundQ (tileYfQ ⟨0, 0, 32, 32⟩ ⟨5, 7⟩) + 1)) ∧
      sqDistQ 5 7
          (tileToScreenX ⟨0, 0, 32, 32⟩
            (croundQ (tileXfQ ⟨0, 0, 32, 32⟩ ⟨5, 7⟩))
            (croundQ (tileYfQ ⟨0, 0, 32, 32⟩ ⟨5, 7⟩)))
          (tileToScreenY ⟨0, 0, 32, 32⟩
            (croundQ (tileXfQ ⟨0, 0, 32, 32⟩ ⟨5, 7⟩))
            (croundQ (tileYfQ ⟨0, 0, 32, 32⟩ ⟨5, 7⟩)))
        ≤ sqDistQ 5 7
            (tileToScreenX ⟨0, 0, 32, 32⟩
              (croundQ (tileXfQ ⟨0, 0, 32, 32⟩ ⟨5, 7⟩))
              (croundQ (tileYfQ ⟨0, 0, 32, 32⟩ ⟨5, 7⟩) - 1))
            (tileToScreenY ⟨0, 0, 32, 32⟩
              (croundQ (tileXfQ ⟨0, 0, 32, 32⟩ ⟨5, 7⟩))
              (croundQ (tileYfQ ⟨0, 0, 32, 32⟩ ⟨5, 7⟩) - 1)) :=
  iso_closest_nearest_square ⟨0, 0, 32, 32⟩ ⟨5, 7⟩ (by decide) rfl
